import Mathlib

/-!
# Verification of the request authentication / error-dispatch pipeline

Shallow embedding of the auth middleware, error dispatcher and the
identifier-taking controllers of the `se_project_express` repository,
with theorems settling the frozen claims about them.

Conventions of the embedding:
* JS strings are Lean `String`s; character-level operations go through
  `String.toList` so that list lemmas apply.
* A JS value that may be `undefined` is an `Option`; JS string truthiness
  (`undefined`, `null` and `""` are falsy) is `tokenFalsy`.
* The external `jsonwebtoken` and `mongoose` collaborators are modelled
  from the spec at their interface boundary (see the doc comments of
  `jwtSign`, `jwtVerifyStr` and `isValidObjectId`).
* Middleware that calls the credential verifier is parameterised over the
  verifier function, so "the verifier is not invoked" is expressed as the
  result being identical for every verifier.
-/

namespace SeProject

set_option autoImplicit false

/-- Character-level test that `p` starts the list `s`; this is the model of
JS `String.prototype.startsWith` used by the middleware. -/
def listLeads : List Char → List Char → Bool
  | [], _ => true
  | _ :: _, [] => false
  | p :: ps, c :: cs => p = c && listLeads ps cs

/-- Model of JS `authorization.startsWith(pat)`. -/
def strLeads (s pat : String) : Bool :=
  listLeads pat.toList s.toList

/-- Drop the first `n` characters of a string.  The middleware computes
`authorization.replace("Bearer ", "")` under a guard that `authorization`
starts with `"Bearer "`; since JS string `replace` rewrites only the first
occurrence, under that guard it is exactly dropping the first 7 chars. -/
def strDropChars (s : String) (n : Nat) : String :=
  String.mk (s.toList.drop n)

/-- JS truthiness of an optional string: `undefined` and `""` are falsy. -/
def tokenFalsy : Option String → Bool
  | none => true
  | some s => s = ""

/-- Normalise an optional string by JS truthiness (falsy becomes `none`). -/
def tokNorm (t : Option String) : Option String :=
  if tokenFalsy t then none else t

/-- An inbound request, restricted to the fields the auth middleware reads:
the `Authorization` header, the `token` query parameter, the `token` body
field and the `jwt` cookie. -/
structure Request where
  authorization : Option String
  queryToken : Option String
  bodyToken : Option String
  cookieJwt : Option String
  deriving DecidableEq, Repr

/-- The payload object signed at login: `jwt.sign({ _id: user._id }, ...)`. -/
structure JwtPayload where
  _id : String
  deriving DecidableEq, Repr

/-- Failure kinds of the credential verifier collaborator. -/
inductive JwtError where
  | malformed
  | invalidSignature
  | expired
  deriving DecidableEq, Repr

/-- Modelled from the spec: the token contents of the `jsonwebtoken`
collaborator — "subject identifier, issued-at, expires-at, signature"
(§3, Credential); issued-at is recoverable from the expiry here because
`login` always signs with `expiresIn: "7d"`. -/
structure Jwt where
  _id : String
  exp : Nat
  sig : String
  deriving DecidableEq, Repr

/-- Fuel-driven decimal rendering of a natural number (kernel-reducible). -/
def natDigitsAux : Nat → Nat → List Char
  | 0, _ => []
  | fuel + 1, n =>
    let d := Char.ofNat (48 + n % 10)
    if n < 10 then [d] else natDigitsAux fuel (n / 10) ++ [d]

/-- Decimal rendering of a natural number. -/
def natToStr (n : Nat) : String :=
  String.mk (natDigitsAux (n + 1) n)

/-- Modelled from the spec: the signature of a credential, which "must
validate against a server-held secret" (§3).  The model MAC is the secret
joined with the signed fields; the pipeline only ever compares signatures
for equality, so any injective tag works. -/
def macSign (secret id : String) (exp : Nat) : String :=
  secret ++ ":" ++ id ++ ":" ++ natToStr exp

/-- Seven days in seconds: `login` signs with `expiresIn: "7d"`. -/
def sevenDays : Nat := 7 * 24 * 60 * 60

/-- Modelled from the spec: `jwt.sign({ _id }, secret, { expiresIn: "7d" })`
as invoked by the `login` controller (src/controllers/users.js). -/
def jwtSign (secret id : String) (now : Nat) : Jwt :=
  { _id := id, exp := now + sevenDays, sig := macSign secret id (now + sevenDays) }

/-- Split a character list at every occurrence of `sep`. -/
def splitOnChar (sep : Char) : List Char → List (List Char)
  | [] => [[]]
  | c :: cs =>
    match splitOnChar sep cs with
    | [] => if c = sep then [[], [c]] else [[c]]
    | p :: ps => if c = sep then [] :: p :: ps else (c :: p) :: ps

/-- Parse a nonempty all-digit character list as a decimal natural. -/
def parseNatAux : List Char → Nat → Option Nat
  | [], acc => some acc
  | c :: cs, acc =>
    if 48 ≤ c.toNat ∧ c.toNat ≤ 57 then parseNatAux cs (acc * 10 + (c.toNat - 48))
    else none

/-- Parse a decimal natural from a character list (`none` on empty input). -/
def parseNat : List Char → Option Nat
  | [] => none
  | c :: cs => parseNatAux (c :: cs) 0

/-- Modelled from the spec: decoding of the wire form of a credential
(`subject.expiry.signature`); the exact encoding is "left to the
implementer's chosen token standard" (§6). -/
def jwtDecode (s : String) : Option Jwt :=
  match splitOnChar '.' s.toList with
  | [i, e, g] =>
    match parseNat e with
    | some n => some { _id := String.mk i, exp := n, sig := String.mk g }
    | none => none
  | _ => none

/-- Modelled from the spec: `jwt.verify(token, secret)` — "parse and
cryptographically verify the signature against the server secret; reject
if the signature is invalid, reject if current time is at or past the
expiry timestamp; on success decode the subject identifier" (§4.2). -/
def jwtVerifyStr (secret : String) (now : Nat) (token : String) : Except JwtError JwtPayload :=
  match jwtDecode token with
  | none => Except.error JwtError.malformed
  | some t =>
    if t.sig = macSign secret t._id t.exp then
      if now < t.exp then Except.ok { _id := t._id }
      else Except.error JwtError.expired
    else Except.error JwtError.invalidSignature

/-- A credential verifier: the interface of `jwt.verify` with the secret
and clock fixed. -/
def Verifier : Type := String → Except JwtError JwtPayload

/-- Outcome of an auth middleware invocation. -/
inductive AuthResult where
  /-- `res.status(status).json({ message })` sent directly. -/
  | respond (status : Nat) (message : String)
  /-- `req.user = payload; next()`. -/
  | proceed (user : JwtPayload)
  /-- `next(err)` with an error carrying `statusCode`, `name`, `message`. -/
  | fail (statusCode : Nat) (name : String) (message : String)
  deriving DecidableEq, Repr

/-- Modelled from the spec: `UNAUTHORIZED` of src/utils/constants (the file
is not under src/); the taxonomy binds kind `Unauthorized` to status 401
(§4.1). -/
def UNAUTHORIZED : Nat := 401

/-- Modelled from the spec: `FORBIDDEN` of src/utils/constants (the file is
not under src/); the taxonomy binds kind `Forbidden` to status 403 (§4.1). -/
def FORBIDDEN : Nat := 403

/-- Token extraction from the `Authorization` header, shared verbatim by
every middleware variant:
`if (authorization && authorization.startsWith("Bearer ")) token = authorization.replace("Bearer ", "")`. -/
def headerToken (req : Request) : Option String :=
  match req.authorization with
  | some a => if strLeads a "Bearer " then some (strDropChars a 7) else none
  | none => none

/-- src/middlewares/auth.js: the canonical auth middleware.  Looks only at
the `Authorization` header; note the trailing space in the missing-token
message, present in the source. -/
def authMiddleware (verify : Verifier) (req : Request) : AuthResult :=
  let token := headerToken req
  if tokenFalsy token then AuthResult.respond UNAUTHORIZED "Authorization required "
  else
    match verify (token.getD "") with
    | Except.ok payload => AuthResult.proceed payload
    | Except.error _ => AuthResult.respond UNAUTHORIZED "Authorization required"

/-- Token lookup of the cookie-fallback variant: header bearer token when
the header starts with "Bearer ", otherwise the `jwt` cookie. -/
def headerOrCookieToken (req : Request) : Option String :=
  match req.authorization with
  | some a => if strLeads a "Bearer " then some (strDropChars a 7) else req.cookieJwt
  | none => req.cookieJwt

/-- src/unnamed/part_008 lines 28–57: the variant that falls back to the
`jwt` cookie and answers verification failure with `FORBIDDEN`. -/
def authMiddlewareForbidden (verify : Verifier) (req : Request) : AuthResult :=
  let token := headerOrCookieToken req
  if tokenFalsy token then AuthResult.respond UNAUTHORIZED "Authorization required "
  else
    match verify (token.getD "") with
    | Except.ok payload => AuthResult.proceed payload
    | Except.error _ => AuthResult.respond FORBIDDEN "Authorization required"

/-- The credential lookup of the three-location variant (src/unnamed/part_008
lines 63–88): header bearer token, then `token` query parameter, then
`token` body field, each taken only when the running candidate is falsy. -/
def chosenToken3 (req : Request) : Option String :=
  let t1 := headerToken req
  let t2 := if tokenFalsy t1 && !(tokenFalsy req.queryToken) then req.queryToken else t1
  if tokenFalsy t2 && !(tokenFalsy req.bodyToken) then req.bodyToken else t2

/-- src/unnamed/part_008 lines 58–99: the three-location variant; failures
are forwarded with `next(new UnauthorizedError(...))` (statusCode 401,
name "UnauthorizedError" per src/utils/errors.js). -/
def authMiddlewareThreeLocation (verify : Verifier) (req : Request) : AuthResult :=
  let token := chosenToken3 req
  if tokenFalsy token then AuthResult.fail 401 "UnauthorizedError" "Authorization required"
  else
    match verify (token.getD "") with
    | Except.ok payload => AuthResult.proceed payload
    | Except.error _ =>
      AuthResult.fail 401 "UnauthorizedError" "Authorization token is invalid or expired"

/-! ## Error taxonomy and dispatcher -/

/-- The fields of a JS error value that the dispatcher inspects:
`statusCode` (absent on plain errors), `name` (always a string on JS
`Error` objects), the numeric `code` of storage faults, and `message`. -/
structure ErrValue where
  statusCode : Option Nat
  name : String
  code : Option Nat
  message : String
  deriving DecidableEq, Repr

/-- JS truthiness of the optional numeric `statusCode` (`undefined` and `0`
are falsy, so `if (err.statusCode)` skips both). -/
def scTruthy : Option Nat → Bool
  | none => false
  | some n => n ≠ 0

/-- A dispatcher response: HTTP status plus a JSON-object body given as
key/value pairs (every value emitted by either dispatcher is a string). -/
structure DispatchResponse where
  status : Nat
  body : List (String × String)
  deriving DecidableEq, Repr

/-- src/middlewares/errorHandler.js: the canonical error dispatcher.
Defaults to 500/"Internal Server Error", takes `err.statusCode` and
`err.message` verbatim when `statusCode` is truthy, otherwise maps the
known collaborator faults, and emits `res.status(...).json({ error: message })`. -/
def errorHandler (err : ErrValue) : DispatchResponse :=
  let pair :=
    if scTruthy err.statusCode then (err.statusCode.getD 500, err.message)
    else if err.name = "ValidationError" then (400, "Invalid data provided")
    else if err.name = "CastError" then (400, "Invalid ID format")
    else if err.code = some 11000 then (409, "Duplicate data - resource already exists")
    else if err.name = "JsonWebTokenError" then (401, "Invalid token")
    else if err.name = "TokenExpiredError" then (401, "Token expired")
    else (500, "Internal Server Error")
  { status := pair.1, body := [("error", pair.2)] }

/-- src/unnamed/part_009: the error-handler variant.  Destructures
`{ statusCode = 500, message }` and sends `{ message }`, replacing the
message by a fixed string whenever the resolved status is 500. -/
def errorHandlerVariant (err : ErrValue) : DispatchResponse :=
  let statusCode := err.statusCode.getD 500
  { status := statusCode
    body := [("message",
      if statusCode = 500 then "An error has occurred on the server" else err.message)] }

/-- Byte rendering of a dispatcher body as the JSON text on the wire. -/
def renderBody : List (String × String) → String
  | [] => "\x7b\x7d"
  | (k, v) :: rest =>
    "\x7b\"" ++ k ++ "\":\"" ++ v ++ "\"" ++
      (rest.foldr (fun p acc => ",\"" ++ p.1 ++ "\":\"" ++ p.2 ++ "\"" ++ acc) "") ++ "\x7d"

/-! ## Storage model and the identifier-taking controllers -/

/-- Modelled from the spec: `mongoose.Types.ObjectId.isValid` on the
identifiers this API uses — "hexadecimal/length-24 format for resource
identifiers" (§3, Validation Schema). -/
def isValidObjectId (s : String) : Bool :=
  s.toList.length = 24 && s.toList.all (fun c =>
    (48 ≤ c.toNat && c.toNat ≤ 57) || (97 ≤ c.toNat && c.toNat ≤ 102) ||
    (65 ≤ c.toNat && c.toNat ≤ 70))

/-- A stored user record, restricted to the fields `getUserById` reads. -/
structure StoredUser where
  _id : String
  name : String
  avatar : String
  email : String
  deriving DecidableEq, Repr

/-- A stored clothing item, restricted to the fields `deleteItem` reads. -/
structure StoredItem where
  _id : String
  owner : String
  deriving DecidableEq, Repr

/-- A storage operation reaching the document store (the collaborator the
controllers call through mongoose). -/
inductive DbOp where
  | findById (id : String)
  | findByIdAndDelete (id : String)
  deriving DecidableEq, Repr

/-- Modelled from the spec: the storage collaborator's `findById` — a
malformed identifier raises the storage malformed-identifier fault
(`CastError`), otherwise the record with that `_id` is returned (§6). -/
def dbFindUser (db : List StoredUser) (id : String) : Except String (Option StoredUser) :=
  if isValidObjectId id then Except.ok (db.find? (fun u => u._id = id))
  else Except.error "CastError"

/-- Storage lookup of an item by `_id` (identifier already validated at the
call sites that use this). -/
def dbFindItem (db : List StoredItem) (id : String) : Option StoredItem :=
  db.find? (fun i => i._id = id)

/-- Storage deletion of an item by `_id`. -/
def dbDeleteItem (db : List StoredItem) (id : String) : List StoredItem :=
  db.filter (fun i => !(i._id = id))

/-- Outcome of a controller invocation: response status, response body
(either a `{ message }` object or a `{ data: item }` object), the store
after the call, and the trace of storage operations invoked. -/
inductive ItemBody where
  | message (m : String)
  | data (item : StoredItem)
  deriving DecidableEq, Repr

/-- Result of a delete-item handler. -/
structure DeleteOut where
  status : Nat
  body : ItemBody
  db : List StoredItem
  ops : List DbOp
  deriving DecidableEq, Repr

/-- src/controllers/clothingItem.js lines 135–159: `deleteItem`, the
ownership-checking variant.  Rejects malformed identifiers before any
storage call, 404s a missing item, 403s a caller who is not the owner and
only then deletes. -/
def deleteItem (db : List StoredItem) (userId itemId : String) : DeleteOut :=
  if !(isValidObjectId itemId) then
    { status := 400, body := ItemBody.message "Invalid item ID", db := db, ops := [] }
  else
    match dbFindItem db itemId with
    | none =>
      { status := 404, body := ItemBody.message "Item not found", db := db
        ops := [DbOp.findById itemId] }
    | some item =>
      if !(item.owner = userId) then
        { status := 403
          body := ItemBody.message "Forbidden: You can only delete your own items"
          db := db, ops := [DbOp.findById itemId] }
      else
        { status := 200, body := ItemBody.data item, db := dbDeleteItem db itemId
          ops := [DbOp.findById itemId, DbOp.findByIdAndDelete itemId] }

/-- src/unnamed/part_001 lines 206–223: the `deleteItem` variant without an
ownership check.  A malformed identifier answers 404, and any existing item
is deleted regardless of the caller (`findByIdAndDelete` returns the
removed item, or null when nothing matched). -/
def deleteItemPart001 (db : List StoredItem) (userId itemId : String) : DeleteOut :=
  if !(isValidObjectId itemId) then
    { status := 404, body := ItemBody.message "Item not found", db := db, ops := [] }
  else
    match dbFindItem db itemId with
    | none =>
      { status := 400, body := ItemBody.message "Item not found", db := db
        ops := [DbOp.findByIdAndDelete itemId] }
    | some item =>
      { status := 200, body := ItemBody.data item, db := dbDeleteItem db itemId
        ops := [DbOp.findByIdAndDelete itemId] }

/-- Result of the get-user-by-id handler: status, JSON-object body with
string values, and the trace of storage operations invoked. -/
structure UserOut where
  status : Nat
  body : List (String × String)
  ops : List DbOp
  deriving DecidableEq, Repr

/-- src/controllers/users.js lines 175–195: `getUserById`.  The identifier
is handed to `User.findById` unconditionally; the storage `CastError`
fault raised on a malformed identifier is mapped to 400 in the catch. -/
def getUserById (db : List StoredUser) (id : String) : UserOut :=
  match dbFindUser db id with
  | Except.ok none =>
    { status := 404, body := [("message", "User not found")], ops := [DbOp.findById id] }
  | Except.ok (some u) =>
    { status := 200
      body := [("_id", u._id), ("name", u.name), ("avatar", u.avatar), ("email", u.email)]
      ops := [DbOp.findById id] }
  | Except.error name =>
    if name = "CastError" then
      { status := 400, body := [("message", "Invalid user ID")], ops := [DbOp.findById id] }
    else
      { status := 500, body := [("message", "An error occurred on the server.")]
        ops := [DbOp.findById id] }

/-- The spec's credential lookup, stated in its own words: "Locate a
candidate credential in this order: Authorization header bearer token →
query parameter → body field. First non-empty candidate wins" (§4.3).
Named separately so the implementation's lookup can be compared with it. -/
def specFirstNonEmpty : List (Option String) → Option String
  | [] => none
  | c :: rest => if tokenFalsy c then specFirstNonEmpty rest else c

/-! ## Helper lemmas -/

theorem listLeads_append (p t : List Char) : listLeads p (p ++ t) = true := by
  induction p with
  | nil => rfl
  | cons c cs ih => simp [listLeads, ih]

theorem strLeads_bearer (s : String) : strLeads ("Bearer " ++ s) "Bearer " = true := by
  have h : ("Bearer " ++ s).toList = "Bearer ".toList ++ s.toList := by
    simp [String.toList, String.data_append]
  simp only [strLeads, h]
  exact listLeads_append "Bearer ".toList s.toList

theorem strDropChars_bearer (s : String) : strDropChars ("Bearer " ++ s) 7 = s := by
  have h : ("Bearer " ++ s).toList = "Bearer ".toList ++ s.toList := by
    simp [String.toList, String.data_append]
  simp only [strDropChars, h]
  rw [show (7 : Nat) = ("Bearer ".toList).length from rfl, List.drop_left]
  rfl

/-! ## Claims about the error dispatcher -/

/-- C3 (amended): every body emitted by either error dispatcher is a JSON
object with exactly one key whose value is a string; the variant
(src/unnamed/part_009) uses the key "message" as the claim states, but the
canonical dispatcher (src/middlewares/errorHandler.js) uses the key
"error". -/
theorem dispatcher_single_key_bodies (err : ErrValue) :
    (errorHandler err).body.map Prod.fst = ["error"] ∧
    (errorHandlerVariant err).body.map Prod.fst = ["message"] := by
  constructor <;> simp [errorHandler, errorHandlerVariant]

/-- C3 (counterexample): dispatching an unrecognized error through the
canonical dispatcher produces a body whose single key is "error", not
"message", refuting the claim that an "error"-keyed body is never
emitted. -/
theorem dispatcher_body_key_is_error_not_message :
    errorHandler ⟨none, "Error", none, "boom"⟩ =
      ⟨500, [("error", "Internal Server Error")]⟩ ∧
    ("error" : String) ≠ "message" := by
  exact ⟨by decide, by decide⟩

/-- C4: resolution order of the canonical dispatcher.  A truthy
`statusCode` is used verbatim together with the error's own message and
takes priority over every mapped branch; otherwise the storage
schema-violation fault (`ValidationError`) and the malformed-identifier
fault (`CastError`) map to 400, the duplicate-unique-key fault
(code 11000) maps to 409, the credential signature/expiry faults map to
401, and anything unrecognized maps to 500. -/
theorem errorHandler_resolution_order (err : ErrValue) :
    (∀ sc, err.statusCode = some sc → sc ≠ 0 →
      errorHandler err = ⟨sc, [("error", err.message)]⟩) ∧
    (scTruthy err.statusCode = false → err.name = "ValidationError" →
      (errorHandler err).status = 400) ∧
    (scTruthy err.statusCode = false → err.name = "CastError" →
      (errorHandler err).status = 400) ∧
    (scTruthy err.statusCode = false → err.name ≠ "ValidationError" →
      err.name ≠ "CastError" → err.code = some 11000 →
      (errorHandler err).status = 409) ∧
    (scTruthy err.statusCode = false → err.code ≠ some 11000 →
      (err.name = "JsonWebTokenError" ∨ err.name = "TokenExpiredError") →
      (errorHandler err).status = 401) ∧
    (scTruthy err.statusCode = false → err.name ≠ "ValidationError" →
      err.name ≠ "CastError" → err.name ≠ "JsonWebTokenError" →
      err.name ≠ "TokenExpiredError" → err.code ≠ some 11000 →
      errorHandler err = ⟨500, [("error", "Internal Server Error")]⟩) := by
  refine ⟨?_, ?_, ?_, ?_, ?_, ?_⟩
  · intro sc hsc hne
    simp [errorHandler, scTruthy, hsc, hne]
  · intro hsc hname
    simp [errorHandler, hsc, hname]
  · intro hsc hname
    simp [errorHandler, hsc, hname]
  · intro hsc h1 h2 hcode
    simp [errorHandler, hsc, h1, h2, hcode]
  · intro hsc hcode hname
    rcases hname with h | h <;> simp [errorHandler, hsc, hcode, h]
  · intro hsc h1 h2 h3 h4 hcode
    simp [errorHandler, hsc, h1, h2, h3, h4, hcode]

/-- C4 (witness): a `NotFoundError`-shaped value (statusCode 404) is used
verbatim, exercising the statusCode-priority branch of
`errorHandler_resolution_order`. -/
theorem errorHandler_resolution_order_witness :
    errorHandler ⟨some 404, "NotFoundError", none, "User not found"⟩ =
      ⟨404, [("error", "User not found")]⟩ :=
  (errorHandler_resolution_order ⟨some 404, "NotFoundError", none, "User not found"⟩).1
    404 rfl (by decide)

/-- C5 (amended): for every unrecognized error both dispatchers emit a
fixed default message independent of the error's own message text — but
the fixed string is "Internal Server Error" only in the canonical
dispatcher; the variant (src/unnamed/part_009) uses "An error has occurred
on the server". -/
theorem dispatcher_internal_fixed_message (err : ErrValue) :
    (scTruthy err.statusCode = false → err.name ≠ "ValidationError" →
      err.name ≠ "CastError" → err.name ≠ "JsonWebTokenError" →
      err.name ≠ "TokenExpiredError" → err.code ≠ some 11000 →
      errorHandler err = ⟨500, [("error", "Internal Server Error")]⟩) ∧
    (err.statusCode = none →
      errorHandlerVariant err =
        ⟨500, [("message", "An error has occurred on the server")]⟩) := by
  constructor
  · intro hsc h1 h2 h3 h4 hcode
    simp [errorHandler, hsc, h1, h2, h3, h4, hcode]
  · intro hsc
    simp [errorHandlerVariant, hsc]

/-- C5 (witness): an unrecognized error with a leaking-prone message is
answered by both dispatchers with their fixed default bodies. -/
theorem dispatcher_internal_fixed_message_witness :
    errorHandler ⟨none, "RangeError", none, "stack trace detail"⟩ =
      ⟨500, [("error", "Internal Server Error")]⟩ ∧
    errorHandlerVariant ⟨none, "RangeError", none, "stack trace detail"⟩ =
      ⟨500, [("message", "An error has occurred on the server")]⟩ :=
  ⟨(dispatcher_internal_fixed_message ⟨none, "RangeError", none, "stack trace detail"⟩).1
      (by decide) (by decide) (by decide) (by decide) (by decide) (by decide),
    (dispatcher_internal_fixed_message ⟨none, "RangeError", none, "stack trace detail"⟩).2
      rfl⟩

/-- C5 (counterexample): the variant dispatcher answers an unrecognized
error with the fixed string "An error has occurred on the server", which
is not the claimed "Internal Server Error". -/
theorem dispatcher_variant_internal_message_differs :
    errorHandlerVariant ⟨none, "Error", none, "secret detail"⟩ =
      ⟨500, [("message", "An error has occurred on the server")]⟩ ∧
    ("An error has occurred on the server" : String) ≠ "Internal Server Error" := by
  exact ⟨by decide, by decide⟩

/-- C8: both dispatchers are deterministic functions of the error value:
dispatching equal error values yields identical status codes and
byte-identical rendered bodies. -/
theorem dispatcher_deterministic (e₁ e₂ : ErrValue) (h : e₁ = e₂) :
    ((errorHandler e₁).status = (errorHandler e₂).status ∧
      renderBody (errorHandler e₁).body = renderBody (errorHandler e₂).body) ∧
    ((errorHandlerVariant e₁).status = (errorHandlerVariant e₂).status ∧
      renderBody (errorHandlerVariant e₁).body = renderBody (errorHandlerVariant e₂).body) := by
  subst h
  exact ⟨⟨rfl, rfl⟩, rfl, rfl⟩

/-- C8 (witness): dispatching one concrete duplicate-key fault twice. -/
theorem dispatcher_deterministic_witness :
    ((errorHandler ⟨none, "MongoServerError", some 11000, "dup"⟩).status =
        (errorHandler ⟨none, "MongoServerError", some 11000, "dup"⟩).status ∧
      renderBody (errorHandler ⟨none, "MongoServerError", some 11000, "dup"⟩).body =
        renderBody (errorHandler ⟨none, "MongoServerError", some 11000, "dup"⟩).body) ∧
    ((errorHandlerVariant ⟨none, "MongoServerError", some 11000, "dup"⟩).status =
        (errorHandlerVariant ⟨none, "MongoServerError", some 11000, "dup"⟩).status ∧
      renderBody (errorHandlerVariant ⟨none, "MongoServerError", some 11000, "dup"⟩).body =
        renderBody (errorHandlerVariant ⟨none, "MongoServerError", some 11000, "dup"⟩).body) :=
  dispatcher_deterministic ⟨none, "MongoServerError", some 11000, "dup"⟩
    ⟨none, "MongoServerError", some 11000, "dup"⟩ rfl

/-! ## Claims about the authentication middleware -/

/-- C1 (amended): whenever a located credential fails verification — for
any failure kind, tampered signature and expired alike — the canonical
middleware (src/middlewares/auth.js) responds 401 with one fixed message,
identically for every failure kind; but the FORBIDDEN variant
(src/unnamed/part_008 lines 28–57) responds 403 to the same failures. -/
theorem auth_verify_failure_status (v : Verifier) (req : Request) (t : String) (e : JwtError) :
    (headerToken req = some t → t ≠ "" → v t = Except.error e →
      authMiddleware v req = AuthResult.respond 401 "Authorization required") ∧
    (headerOrCookieToken req = some t → t ≠ "" → v t = Except.error e →
      authMiddlewareForbidden v req = AuthResult.respond 403 "Authorization required") := by
  constructor
  · intro ht hne hv
    simp [authMiddleware, ht, tokenFalsy, hne, hv, UNAUTHORIZED]
  · intro ht hne hv
    simp [authMiddlewareForbidden, ht, tokenFalsy, hne, hv, FORBIDDEN]

/-- C1 (witness): a concrete header credential rejected by the verifier is
answered 401 by the canonical middleware and 403 by the variant. -/
theorem auth_verify_failure_status_witness :
    authMiddleware (fun _ => Except.error JwtError.invalidSignature)
        ⟨some "Bearer tok", none, none, none⟩ =
      AuthResult.respond 401 "Authorization required" ∧
    authMiddlewareForbidden (fun _ => Except.error JwtError.invalidSignature)
        ⟨some "Bearer tok", none, none, none⟩ =
      AuthResult.respond 403 "Authorization required" :=
  ⟨(auth_verify_failure_status (fun _ => Except.error JwtError.invalidSignature)
      ⟨some "Bearer tok", none, none, none⟩ "tok" JwtError.invalidSignature).1
      (by decide) (by decide) rfl,
    (auth_verify_failure_status (fun _ => Except.error JwtError.invalidSignature)
      ⟨some "Bearer tok", none, none, none⟩ "tok" JwtError.invalidSignature).2
      (by decide) (by decide) rfl⟩

/-- C1 (counterexample): a tampered credential (its signature does not
match the server secret) makes the FORBIDDEN variant respond with status
403, not 401, refuting the claim that no status other than 401 is ever
produced for a verification failure. -/
theorem auth_forbidden_variant_403_on_tampered_signature :
    jwtVerifyStr "k" 0 "u1.604800.wrong" = Except.error JwtError.invalidSignature ∧
    authMiddlewareForbidden (jwtVerifyStr "k" 0)
        ⟨some "Bearer u1.604800.wrong", none, none, none⟩ =
      AuthResult.respond 403 "Authorization required" ∧
    (403 : Nat) ≠ 401 := by
  exact ⟨rfl, by decide, by decide⟩

/-- C2 (amended): the three-location variant (src/unnamed/part_008 lines
58–99) searches header → query parameter → body field taking the first
non-empty candidate, and with all three empty it fails with an
`UnauthorizedError` "Authorization required" without the verifier being
consulted (its result is identical for every verifier); the canonical
middleware (src/middlewares/auth.js), however, checks only the
Authorization header and its missing-credential message is
"Authorization required " with a trailing space. -/
theorem auth_three_location_lookup (v₁ v₂ : Verifier) (req : Request) :
    (tokNorm (chosenToken3 req) =
      specFirstNonEmpty [headerToken req, req.queryToken, req.bodyToken]) ∧
    (tokenFalsy (headerToken req) = true → tokenFalsy req.queryToken = true →
      tokenFalsy req.bodyToken = true →
      authMiddlewareThreeLocation v₁ req =
        AuthResult.fail 401 "UnauthorizedError" "Authorization required" ∧
      authMiddlewareThreeLocation v₁ req = authMiddlewareThreeLocation v₂ req) ∧
    (tokenFalsy (headerToken req) = true →
      authMiddleware v₁ req = AuthResult.respond 401 "Authorization required " ∧
      authMiddleware v₁ req = authMiddleware v₂ req) := by
  refine ⟨?_, ?_, ?_⟩
  · by_cases h1 : tokenFalsy (headerToken req) = true <;>
      by_cases h2 : tokenFalsy req.queryToken = true <;>
      by_cases h3 : tokenFalsy req.bodyToken = true <;>
      simp [chosenToken3, specFirstNonEmpty, tokNorm, h1, h2, h3]
  · intro h1 h2 h3
    have hc : tokenFalsy (chosenToken3 req) = true := by
      simp [chosenToken3, h1, h2, h3]
    constructor <;> simp [authMiddlewareThreeLocation, hc]
  · intro h1
    constructor <;> simp [authMiddleware, h1, UNAUTHORIZED]

/-- C2 (witness): a credential-free request fails through the
three-location variant with "Authorization required" and through the
canonical middleware with the trailing-space message. -/
theorem auth_three_location_lookup_witness :
    authMiddlewareThreeLocation (fun _ => Except.error JwtError.malformed)
        ⟨none, none, none, none⟩ =
      AuthResult.fail 401 "UnauthorizedError" "Authorization required" ∧
    authMiddleware (fun _ => Except.error JwtError.malformed) ⟨none, none, none, none⟩ =
      AuthResult.respond 401 "Authorization required " :=
  ⟨((auth_three_location_lookup (fun _ => Except.error JwtError.malformed)
        (fun _ => Except.ok ⟨"u"⟩) ⟨none, none, none, none⟩).2.1
        (by decide) (by decide) (by decide)).1,
    ((auth_three_location_lookup (fun _ => Except.error JwtError.malformed)
        (fun _ => Except.ok ⟨"u"⟩) ⟨none, none, none, none⟩).2.2 (by decide)).1⟩

/-- C2 (counterexample): a request carrying a verifiable credential only in
the `token` query parameter is still rejected by the canonical middleware
with the trailing-space message — the query and body locations are never
searched, and the emitted message is not "Authorization required". -/
theorem auth_canonical_ignores_query_token :
    (fun _ => Except.ok (⟨"u"⟩ : JwtPayload) : Verifier) "tok" =
      Except.ok (⟨"u"⟩ : JwtPayload) ∧
    authMiddleware (fun _ => Except.ok ⟨"u"⟩) ⟨none, some "tok", none, none⟩ =
      AuthResult.respond 401 "Authorization required " ∧
    ("Authorization required " : String) ≠ "Authorization required" := by
  exact ⟨rfl, by decide, by decide⟩

/-- C10 (amended): a present Authorization header that does not start with
"Bearer " is treated as an absent credential (no verification is
attempted; the result is identical for every verifier): the
three-location variant fails with exactly "Authorization required" when
query and body are also empty, while the canonical middleware responds
401 with "Authorization required " — a trailing space the claim's quoted
message does not have. -/
theorem auth_nonbearer_header_treated_as_absent (v₁ v₂ : Verifier) (req : Request)
    (a : String) (ha : req.authorization = some a) (hA : strLeads a "Bearer " = false) :
    (authMiddleware v₁ req = AuthResult.respond 401 "Authorization required " ∧
      authMiddleware v₁ req = authMiddleware v₂ req) ∧
    (tokenFalsy req.queryToken = true → tokenFalsy req.bodyToken = true →
      authMiddlewareThreeLocation v₁ req =
        AuthResult.fail 401 "UnauthorizedError" "Authorization required" ∧
      authMiddlewareThreeLocation v₁ req = authMiddlewareThreeLocation v₂ req) := by
  have hh : headerToken req = none := by
    simp [headerToken, ha, hA]
  constructor
  · constructor <;> simp [authMiddleware, hh, tokenFalsy, UNAUTHORIZED]
  · intro h2 h3
    have h1 : tokenFalsy (headerToken req) = true := by rw [hh]; rfl
    have hc : tokenFalsy (chosenToken3 req) = true := by
      simp [chosenToken3, h1, h2, h3]
    constructor <;> simp [authMiddlewareThreeLocation, hc]

/-- C10 (witness): header "Token abc" presents no bearer credential; both
middlewares reject without verifying. -/
theorem auth_nonbearer_header_treated_as_absent_witness :
    authMiddleware (fun _ => Except.ok ⟨"u"⟩) ⟨some "Token abc", none, none, none⟩ =
      AuthResult.respond 401 "Authorization required " ∧
    authMiddlewareThreeLocation (fun _ => Except.ok ⟨"u"⟩)
        ⟨some "Token abc", none, none, none⟩ =
      AuthResult.fail 401 "UnauthorizedError" "Authorization required" :=
  ⟨(auth_nonbearer_header_treated_as_absent (fun _ => Except.ok ⟨"u"⟩)
      (fun _ => Except.error JwtError.malformed) ⟨some "Token abc", none, none, none⟩
      "Token abc" rfl (by decide)).1.1,
    ((auth_nonbearer_header_treated_as_absent (fun _ => Except.ok ⟨"u"⟩)
      (fun _ => Except.error JwtError.malformed) ⟨some "Token abc", none, none, none⟩
      "Token abc" rfl (by decide)).2 (by decide) (by decide)).1⟩

/-- C10 (counterexample): with a non-bearer Authorization header the
canonical middleware does answer 401 without verifying, but its message is
"Authorization required " (trailing space), not the claimed
"Authorization required". -/
theorem auth_nonbearer_message_trailing_space :
    authMiddleware (fun _ => Except.ok ⟨"u"⟩) ⟨some "Basic dXNlcg==", none, none, none⟩ =
      AuthResult.respond 401 "Authorization required " ∧
    ("Authorization required " : String) ≠ "Authorization required" := by
  exact ⟨by decide, by decide⟩

/-- C7: a credential signed at login (`jwt.sign({ _id: user._id }, secret,
{ expiresIn: "7d" })`), presented as a bearer token and still unexpired,
makes the canonical middleware attach to the request a caller identity
whose `_id` equals the subject identifier signed at login. -/
theorem auth_attaches_login_subject (secret id s : String) (tsign now : Nat) (req : Request)
    (hdec : jwtDecode s = some (jwtSign secret id tsign))
    (hexp : now < tsign + sevenDays)
    (hreq : req.authorization = some ("Bearer " ++ s)) :
    authMiddleware (jwtVerifyStr secret now) req = AuthResult.proceed ⟨id⟩ := by
  have hne : s ≠ "" := by
    intro h
    rw [h] at hdec
    exact Option.noConfusion ((by decide : jwtDecode "" = none) ▸ hdec)
  have hh : headerToken req = some s := by
    simp [headerToken, hreq, strLeads_bearer, strDropChars_bearer]
  have hv : jwtVerifyStr secret now s = Except.ok ⟨id⟩ := by
    simp [jwtVerifyStr, hdec, jwtSign, hexp]
  simp [authMiddleware, hh, tokenFalsy, hne, hv]

/-- C7 (witness): a concrete login-signed credential for subject "u1",
verified before its seven-day expiry, yields caller identity "u1". -/
theorem auth_attaches_login_subject_witness :
    jwtDecode "u1.604800.k:u1:604800" = some (jwtSign "k" "u1" 0) ∧
    authMiddleware (jwtVerifyStr "k" 100)
        ⟨some ("Bearer " ++ "u1.604800.k:u1:604800"), none, none, none⟩ =
      AuthResult.proceed ⟨"u1"⟩ :=
  ⟨by decide,
    auth_attaches_login_subject "k" "u1" "u1.604800.k:u1:604800" 0 100
      ⟨some ("Bearer " ++ "u1.604800.k:u1:604800"), none, none, none⟩
      (by decide) (by decide) rfl⟩

/-! ## Claims about the identifier-taking controllers -/

/-- C6 (amended): a path identifier that is not a 24-character hexadecimal
string is answered 400 by both cited handlers, but only `deleteItem`
checks it before storage (its operation trace is empty); `getUserById`
passes the malformed identifier to the storage `findById` and maps the
resulting `CastError` fault to 400 afterwards, so malformed identifiers do
reach the storage layer on that route. -/
theorem malformed_id_bad_request (idb : List StoredItem) (udb : List StoredUser)
    (uid iid : String) :
    (isValidObjectId iid = false →
      deleteItem idb uid iid = ⟨400, ItemBody.message "Invalid item ID", idb, []⟩) ∧
    (isValidObjectId iid = false →
      getUserById udb iid = ⟨400, [("message", "Invalid user ID")], [DbOp.findById iid]⟩) := by
  constructor
  · intro h
    simp [deleteItem, h]
  · intro h
    simp [getUserById, dbFindUser, h]

/-- C6 (witness): the malformed identifier "xyz" is answered 400 by both
handlers, with an empty trace only for `deleteItem`. -/
theorem malformed_id_bad_request_witness :
    deleteItem [] "caller" "xyz" = ⟨400, ItemBody.message "Invalid item ID", [], []⟩ ∧
    getUserById [] "xyz" = ⟨400, [("message", "Invalid user ID")], [DbOp.findById "xyz"]⟩ :=
  ⟨(malformed_id_bad_request [] [] "caller" "xyz").1 (by decide),
    (malformed_id_bad_request [] [] "caller" "xyz").2 (by decide)⟩

/-- C6 (counterexample): `getUserById` on the malformed identifier "xyz"
invokes a storage operation — its trace is not empty — refuting the claim
that malformed identifiers never reach the storage layer on any
identifier-taking route. -/
theorem getUserById_reaches_storage_on_malformed_id :
    (getUserById [] "xyz").status = 400 ∧
    (getUserById [] "xyz").ops = [DbOp.findById "xyz"] ∧
    (getUserById [] "xyz").ops ≠ [] := by
  exact ⟨by decide, by decide, by decide⟩

/-- C9 (amended): the ownership-checking `deleteItem`
(src/controllers/clothingItem.js) answers a non-owner with 403 and leaves
the store unchanged; the `deleteItem` variant of src/unnamed/part_001
performs no ownership check and deletes any existing item for any
authenticated caller. -/
theorem delete_item_ownership (db : List StoredItem) (uid iid : String) (item : StoredItem) :
    (isValidObjectId iid = true → dbFindItem db iid = some item → item.owner ≠ uid →
      deleteItem db uid iid =
        ⟨403, ItemBody.message "Forbidden: You can only delete your own items", db,
          [DbOp.findById iid]⟩) ∧
    (isValidObjectId iid = true → dbFindItem db iid = some item →
      deleteItemPart001 db uid iid =
        ⟨200, ItemBody.data item, dbDeleteItem db iid, [DbOp.findByIdAndDelete iid]⟩) := by
  constructor
  · intro hid hfind howner
    simp [deleteItem, hid, hfind, howner]
  · intro hid hfind
    simp [deleteItemPart001, hid, hfind]

/-- C9 (witness): a concrete non-owner delete request is answered 403 with
the store unchanged by the ownership-checking handler, while the
part_001 variant deletes the item. -/
theorem delete_item_ownership_witness :
    deleteItem [⟨"aaaaaaaaaaaaaaaaaaaaaaaa", "ownerX"⟩] "intruder" "aaaaaaaaaaaaaaaaaaaaaaaa" =
      ⟨403, ItemBody.message "Forbidden: You can only delete your own items",
        [⟨"aaaaaaaaaaaaaaaaaaaaaaaa", "ownerX"⟩],
        [DbOp.findById "aaaaaaaaaaaaaaaaaaaaaaaa"]⟩ ∧
    deleteItemPart001 [⟨"aaaaaaaaaaaaaaaaaaaaaaaa", "ownerX"⟩] "intruder"
        "aaaaaaaaaaaaaaaaaaaaaaaa" =
      ⟨200, ItemBody.data ⟨"aaaaaaaaaaaaaaaaaaaaaaaa", "ownerX"⟩, [],
        [DbOp.findByIdAndDelete "aaaaaaaaaaaaaaaaaaaaaaaa"]⟩ :=
  ⟨(delete_item_ownership [⟨"aaaaaaaaaaaaaaaaaaaaaaaa", "ownerX"⟩] "intruder"
      "aaaaaaaaaaaaaaaaaaaaaaaa" ⟨"aaaaaaaaaaaaaaaaaaaaaaaa", "ownerX"⟩).1
      (by decide) (by decide) (by decide),
    (delete_item_ownership [⟨"aaaaaaaaaaaaaaaaaaaaaaaa", "ownerX"⟩] "intruder"
      "aaaaaaaaaaaaaaaaaaaaaaaa" ⟨"aaaaaaaaaaaaaaaaaaaaaaaa", "ownerX"⟩).2
      (by decide) (by decide)⟩

/-- C9 (counterexample): through the part_001 variant a caller who is not
the owner deletes the item: the response is 200 (not 403) and the stored
item is removed, refuting the claim for every delete-item handler. -/
theorem deleteItemPart001_deletes_for_non_owner :
    (deleteItemPart001 [⟨"aaaaaaaaaaaaaaaaaaaaaaaa", "ownerX"⟩] "intruder"
        "aaaaaaaaaaaaaaaaaaaaaaaa").status = 200 ∧
    (200 : Nat) ≠ 403 ∧
    (deleteItemPart001 [⟨"aaaaaaaaaaaaaaaaaaaaaaaa", "ownerX"⟩] "intruder"
        "aaaaaaaaaaaaaaaaaaaaaaaa").db = [] ∧
    ([] : List StoredItem) ≠ [⟨"aaaaaaaaaaaaaaaaaaaaaaaa", "ownerX"⟩] := by
  exact ⟨by decide, by decide, by decide, by decide⟩

end SeProject
